import Mathlib

/-!
# Verification of the fetch/sort/render pipeline of the news-page scripts

This file gives a shallow embedding of the client scripts of the repository
(the aggregated-news page).  The repository contains three variants of the
script:

* `renderAggregatedNews` / `fetchAndRenderAggregatedNews` / `fetchDailyBriefing`
  / `renderBriefing` — the variant with the daily briefing and the guarded
  comparators (`a.published_date ? new Date(a.published_date) : new Date(0)`,
  `(a.source || '').localeCompare(b.source || '')`);
* a second guarded variant (`fetchNewsAndRender` / `renderNews`) whose sort
  cases coincide with the first for the properties studied here;
* the `frontend/script.js` variant, whose `source_asc` case calls
  `a.source.localeCompare(b.source)` without a null guard and whose
  sort-change listener ignores fetch errors; it is embedded separately
  (definitions suffixed `Frontend`).

Modelling conventions:

* A record field that may be `null`/`undefined` in JavaScript is an `Option`.
* `published_date` is carried as the timestamp (milliseconds since the Unix
  epoch, an `Int`) denoted by the stored date string: `new Date(s)` on a
  present, parseable date string yields that timestamp, and `new Date(0)` is
  timestamp `0`.  An absent date is `none`.
* `Array.prototype.sort` with a consistent comparator is a stable sort
  producing a sorted permutation (ECMAScript 2019 and later); it is embedded
  as `List.mergeSort` with the boolean relation `comparator(a,b) ≤ 0`.
* `localeCompare` is modelled as the three-valued comparison of the
  lexicographic order on strings (a fixed locale-consistent total order).
* `toLocaleDateString` is modelled as an unspecified-but-fixed rendering of
  the timestamp; its exact text is irrelevant to every claim below.
* DOM regions are modelled as their `innerHTML` string; an assignment is a
  functional update, and `+=` is string append.
-/

namespace AiNewsAgent

/-- An article row of the remote `articles` collection, with the fields the
scripts read.  Optional fields model `null`/`undefined` columns. -/
structure Article where
  title : Option String := none
  url : Option String := none
  source : Option String := none
  published_date : Option Int := none
  description : Option String := none
  keywords_matched : Option (List String) := none
deriving DecidableEq

/-- `a.published_date ? new Date(a.published_date) : new Date(0)` — the
effective timestamp used by both date comparators: the parsed timestamp when
the field is present, the epoch (0) when it is absent. -/
def effDate (a : Article) : Int :=
  match a.published_date with
  | some t => t
  | none => 0

/-- `(a.source || '')` — the source string with a missing source replaced by
the empty string. -/
def sourceKey (a : Article) : String :=
  match a.source with
  | some s => s
  | none => ""

/-- Model of `x.localeCompare(y)`: negative when `x` precedes `y`, zero when
equal, positive when `x` follows `y`, in a fixed total order on strings. -/
def localeCompare (x y : String) : Int :=
  if x < y then -1 else if x = y then 0 else 1

/-- Boolean form of the `published_date_asc` comparator
`(a, b) => dateA - dateB`: `a` may precede `b` iff `dateA - dateB ≤ 0`. -/
def dateAscLe (a b : Article) : Bool :=
  decide (effDate a ≤ effDate b)

/-- Boolean form of the `published_date_desc` comparator
`(a, b) => dateB - dateA`. -/
def dateDescLe (a b : Article) : Bool :=
  decide (effDate b ≤ effDate a)

/-- Boolean form of the `source_asc` comparator
`(a, b) => (a.source || '').localeCompare(b.source || '')`. -/
def sourceAscLe (a b : Article) : Bool :=
  decide (localeCompare (sourceKey a) (sourceKey b) ≤ 0)

/-- The sorting stage of `renderAggregatedNews`: copy the cached array
(`[...articles]`) and switch on the selected order key; an unrecognized key
leaves the fetched order unchanged.  The in-place `sort` on the copy is
embedded as a stable sort of the list. -/
def sortArticles (articles : List Article) (sortOrder : String) : List Article :=
  if sortOrder = "published_date_asc" then articles.mergeSort dateAscLe
  else if sortOrder = "published_date_desc" then articles.mergeSort dateDescLe
  else if sortOrder = "source_asc" then articles.mergeSort sourceAscLe
  else articles

theorem dateAscLe_trans : ∀ a b c, dateAscLe a b → dateAscLe b c → dateAscLe a c := by
  intro a b c hab hbc
  simp only [dateAscLe, decide_eq_true_eq] at *
  exact le_trans hab hbc

theorem dateAscLe_total : ∀ a b, dateAscLe a b || dateAscLe b a := by
  intro a b
  simp only [dateAscLe, Bool.or_eq_true, decide_eq_true_eq]
  exact le_total _ _

theorem dateDescLe_trans : ∀ a b c, dateDescLe a b → dateDescLe b c → dateDescLe a c := by
  intro a b c hab hbc
  simp only [dateDescLe, decide_eq_true_eq] at *
  exact le_trans hbc hab

theorem dateDescLe_total : ∀ a b, dateDescLe a b || dateDescLe b a := by
  intro a b
  simp only [dateDescLe, Bool.or_eq_true, decide_eq_true_eq]
  exact le_total _ _

theorem localeCompare_nonpos_iff (x y : String) : localeCompare x y ≤ 0 ↔ x ≤ y := by
  unfold localeCompare
  rcases lt_trichotomy x y with h | h | h
  · simp [h, le_of_lt h]
  · simp [h]
  · have hne : x ≠ y := ne_of_gt h
    have hnlt : ¬ x < y := not_lt_of_gt h
    simp [hnlt, hne, not_le_of_gt h]

theorem sourceAscLe_trans : ∀ a b c, sourceAscLe a b → sourceAscLe b c → sourceAscLe a c := by
  intro a b c hab hbc
  simp only [sourceAscLe, decide_eq_true_eq, localeCompare_nonpos_iff] at *
  exact le_trans hab hbc

theorem sourceAscLe_total : ∀ a b, sourceAscLe a b || sourceAscLe b a := by
  intro a b
  simp only [sourceAscLe, Bool.or_eq_true, decide_eq_true_eq, localeCompare_nonpos_iff]
  exact le_total _ _

/-- Model of `toLocaleDateString(...)` applied to a timestamp: an
unspecified-but-fixed rendering; its exact text matters to no claim. -/
def formatDate (t : Int) : String :=
  toString t

/-- `article.published_date ? new Date(...).toLocaleDateString(...) : 'N/A'`. -/
def articleDateStr (a : Article) : String :=
  match a.published_date with
  | some t => formatDate t
  | none => "N/A"

/-- `x || d` on a possibly-missing string field: JavaScript treats both
`null`/`undefined` and the empty string as falsy. -/
def jsOrStr (o : Option String) (d : String) : String :=
  match o with
  | some s => if s = "" then d else s
  | none => d

/-- `${x}` interpolation of a possibly-missing string field: an absent field
prints as the text `undefined`. -/
def jsInterp (o : Option String) : String :=
  match o with
  | some s => s
  | none => "undefined"

/-- `article.keywords_matched && article.keywords_matched.length > 0 ?
article.keywords_matched.map(k => `<span>k</span>`).join('') : ''`. -/
def keywordsHtml (a : Article) : String :=
  match a.keywords_matched with
  | some ks =>
      if ks.length > 0 then String.join (ks.map fun k => "<span>" ++ k ++ "</span>")
      else ""
  | none => ""

/-- The news-card template of `renderAggregatedNews` (template-literal
whitespace elided). -/
def articleCard (a : Article) : String :=
  "<div class=\"news-card\"><h2><a href=\"" ++ jsInterp a.url ++
    "\" target=\"_blank\">" ++ jsInterp a.title ++
    "</a></h2><p class=\"news-meta\"><span><strong>Source:</strong> " ++
    jsOrStr a.source "Unknown" ++
    "</span><span><strong>Published:</strong> " ++ articleDateStr a ++
    "</span></p><p class=\"news-description\">" ++
    jsOrStr a.description "No description available." ++
    "</p><div class=\"news-keywords\">" ++ keywordsHtml a ++ "</div></div>"

/-- A DOM display region, carried as its `innerHTML` string. -/
structure NewsRegion where
  content : String
deriving DecidableEq

/-- `renderAggregatedNews(articles)` acting on the `news-container` region:
read the selected order key, sort a copy of the articles, clear the region
(`newsContainer.innerHTML = ''`), then append one card per article
(`newsContainer.innerHTML += newsCard`). -/
def renderAggregatedNewsInto (sortOrder : String) (articles : List Article)
    (region : NewsRegion) : NewsRegion :=
  let sortedArticles := sortArticles articles sortOrder
  let region : NewsRegion := ⟨""⟩
  sortedArticles.foldl (fun r article => ⟨r.content ++ articleCard article⟩) region

/-- A remote read issued to the data service:
`supabase.from(table).select('*')`. -/
structure Request where
  table : String
deriving DecidableEq

/-- Outcome of an awaited remote read: the destructured
`{ data: articles, error }`. -/
inductive FetchResult where
  | ok (articles : List Article)
  | err (message : String)
deriving DecidableEq

/-- `fetchAndRenderAggregatedNews()`: set the loading placeholder, issue one
`select('*')` read on `articles`, then either show the failure message, show
the empty-state message, or render the list.  Returns the final region
content together with the remote reads the call issued. -/
def fetchAndRenderAggregatedNews (sortOrder : String) (resp : FetchResult) :
    NewsRegion × List Request :=
  let requests : List Request := [⟨"articles"⟩]
  match resp with
  | .err _ =>
      (⟨"<p>Failed to load news articles. Please try again later.</p>"⟩, requests)
  | .ok articles =>
      if articles.length = 0 then
        (⟨"<p>No relevant news articles found today.</p>"⟩, requests)
      else
        (renderAggregatedNewsInto sortOrder articles
          ⟨"<p>Loading news articles...</p>"⟩, requests)

/-- The `change` listener installed on the sort-order select:
`sortOrderSelect.addEventListener('change', fetchAndRenderAggregatedNews)` —
the handler is the full fetch-and-render operation itself. -/
def onSortOrderChange (sortOrder : String) (resp : FetchResult) :
    NewsRegion × List Request :=
  fetchAndRenderAggregatedNews sortOrder resp

/-- A briefing row of the `daily_briefings` collection, with the fields
`renderBriefing` reads. -/
structure Briefing where
  title : Option String := none
  summary_text : Option String := none
  key_developments : Option (List String) := none
  strategic_implications : Option String := none
  suggested_reactions : Option String := none
  related_article_urls : Option (List String) := none
deriving DecidableEq

/-- A missing-or-empty string field (`null`, `undefined` or `''` — all falsy). -/
def strFalsy (o : Option String) : Prop :=
  o = none ∨ o = some ""

/-- A missing-or-empty sequence field (falsy, or present with length 0). -/
def listFalsy (o : Option (List String)) : Prop :=
  o = none ∨ o = some []

instance (o : Option String) : Decidable (strFalsy o) := by
  unfold strFalsy; infer_instance

instance (o : Option (List String)) : Decidable (listFalsy o) := by
  unfold listFalsy; infer_instance

/-- `<h3>${briefing.title || "AI Morning Briefing"}</h3>`. -/
def briefingTitleHtml (b : Briefing) : String :=
  "<h3>" ++ jsOrStr b.title "AI Morning Briefing" ++ "</h3>"

/-- The executive-summary paragraph, unconditionally appended:
`<p><strong>Executive Summary:</strong> ${briefing.summary_text || 'No
summary available.'}</p>`. -/
def summaryHtml (b : Briefing) : String :=
  "<p><strong>Executive Summary:</strong> " ++
    jsOrStr b.summary_text "No summary available." ++ "</p>"

/-- The key-developments section, appended only when the field is present and
non-empty. -/
def keyDevelopmentsHtml (b : Briefing) : String :=
  match b.key_developments with
  | some items =>
      if items.length > 0 then
        "<h3>Key Developments:</h3><ul>" ++
          String.join (items.map fun item => "<li>" ++ item ++ "</li>") ++ "</ul>"
      else ""
  | none => ""

/-- The strategic-implications section, appended only when the field is
truthy. -/
def strategicHtml (b : Briefing) : String :=
  match b.strategic_implications with
  | some s =>
      if s = "" then ""
      else "<h3>Strategic Implications for New Economy Canada:</h3><p>" ++ s ++ "</p>"
  | none => ""

/-- The suggested-reactions section, appended only when the field is truthy. -/
def reactionsHtml (b : Briefing) : String :=
  match b.suggested_reactions with
  | some s =>
      if s = "" then ""
      else "<h3>Suggested Reactions:</h3><p>" ++ s ++ "</p>"
  | none => ""

/-- The related-URL section, appended only when the field is present and
non-empty. -/
def relatedUrlsHtml (b : Briefing) : String :=
  match b.related_article_urls with
  | some urls =>
      if urls.length > 0 then
        "<h3>Relevant Article URLs:</h3><ul>" ++
          String.join (urls.map fun url =>
            "<li><a href=\"" ++ url ++ "\" target=\"_blank\">" ++ url ++ "</a></li>") ++
          "</ul>"
      else ""
  | none => ""

/-- `renderBriefing(briefing)`: the briefing HTML is built by sequential
appends — title, then the unconditional summary paragraph, then the four
conditional sections — and assigned to the briefing region. -/
def renderBriefing (b : Briefing) : String :=
  briefingTitleHtml b ++ summaryHtml b ++ keyDevelopmentsHtml b ++
    strategicHtml b ++ reactionsHtml b ++ relatedUrlsHtml b

/-- A structured error of a remote read, as destructured from
`{ data, error }`: `error.code` and `error.message`. -/
structure SbError where
  code : String
  message : String
deriving DecidableEq

/-- Outcome of a `.single()` read: `{ data: briefing, error }`.  Zero matching
rows surface as `data = null` with `error.code = 'PGRST116'`. -/
structure SingleResult where
  briefing : Option Briefing
  error : Option SbError
deriving DecidableEq

/-- `fetchDailyBriefing()` after its awaited read: a non-`PGRST116` error
shows the failure message and returns; otherwise a present briefing is
rendered and an absent one shows the no-briefing message. -/
def fetchDailyBriefing (resp : SingleResult) : String :=
  if (match resp.error with
      | some e => e.code != "PGRST116"
      | none => false) then
    "<p>Failed to load daily briefing.</p>"
  else
    match resp.briefing with
    | some b => renderBriefing b
    | none => "<p>No AI briefing available for today yet. Check back later!</p>"

/-- `${x}` coercion used by `localeCompare`'s argument: JavaScript stringifies
`null` as the text `null`. -/
def jsToStringArg (o : Option String) : String :=
  match o with
  | some s => s
  | none => "null"

/-- The unguarded `source_asc` comparator of the `frontend/script.js`
variant, `(a, b) => a.source.localeCompare(b.source)`: a missing `a.source`
throws a TypeError; a missing `b.source` is coerced to the string `null`. -/
def sourceCompareFrontend (a b : Article) : Except String Int :=
  match a.source with
  | none => .error "TypeError: Cannot read properties of null"
  | some sa => .ok (localeCompare sa (jsToStringArg b.source))

/-- The unguarded `published_date_asc` comparator of the frontend variant,
`(a, b) => new Date(a.published_date) - new Date(b.published_date)`: a
missing date yields `NaN`, which `Array.prototype.sort` treats as 0. -/
def dateCompareFrontendAsc (a b : Article) : Except String Int :=
  match a.published_date, b.published_date with
  | some ta, some tb => .ok (ta - tb)
  | _, _ => .ok 0

/-- The unguarded `published_date_desc` comparator of the frontend variant. -/
def dateCompareFrontendDesc (a b : Article) : Except String Int :=
  match a.published_date, b.published_date with
  | some ta, some tb => .ok (tb - ta)
  | _, _ => .ok 0

/-- Stable insertion of `x` into an already-ordered list under a comparator
that may throw: `x` goes before the first element it compares strictly below,
so equal keys keep input order.  A thrown comparison aborts the sort. -/
def insertCmp (cmp : Article → Article → Except String Int) (x : Article) :
    List Article → Except String (List Article)
  | [] => pure [x]
  | y :: ys => do
      let c ← cmp x y
      if c < 0 then pure (x :: y :: ys)
      else do pure (y :: (← insertCmp cmp x ys))

/-- A stable sort under a comparator that may throw, aborting on the first
thrown comparison — the observable behaviour of `Array.prototype.sort` with a
throwing comparator. -/
def sortByCmp (cmp : Article → Article → Except String Int)
    (l : List Article) : Except String (List Article) :=
  l.foldlM (fun acc x => insertCmp cmp x acc) []

/-- The sorting stage of the frontend variant's `renderNews`: switch on the
order key with the unguarded comparators; the result is the sorted list, or
the exception thrown by a comparison. -/
def renderNewsFrontendSorted (sortOrder : String) (articles : List Article) :
    Except String (List Article) :=
  if sortOrder = "published_date_asc" then sortByCmp dateCompareFrontendAsc articles
  else if sortOrder = "published_date_desc" then sortByCmp dateCompareFrontendDesc articles
  else if sortOrder = "source_asc" then sortByCmp sourceCompareFrontend articles
  else pure articles

/-- The frontend variant's `renderNews` acting on the region: sort (which may
throw, leaving the region untouched since the clear happens after sorting),
then clear and append cards. -/
def renderNewsFrontendInto (sortOrder : String) (articles : List Article)
    (region : NewsRegion) : NewsRegion :=
  match renderNewsFrontendSorted sortOrder articles with
  | .error _ => region
  | .ok sorted => ⟨sorted.foldl (fun html a => html ++ articleCard a) ""⟩

/-- The frontend variant's sort-order `change` listener: re-fetch the
collection, and only when the read succeeded (`if (!error && articles)`)
re-render; a fetch error is ignored and the region keeps its prior content. -/
def frontendSortChangeListener (sortOrder : String) (resp : FetchResult)
    (region : NewsRegion) : NewsRegion × List Request :=
  let requests : List Request := [⟨"articles"⟩]
  match resp with
  | .err _ => (region, requests)
  | .ok articles => (renderNewsFrontendInto sortOrder articles region, requests)

/-! ## Concrete sample data -/

/-- An article whose `source` is `"Zeta"` (spec scenario for `source_asc`). -/
def zetaArticle : Article := { source := some "Zeta" }

/-- An article with a missing (`null`) `source`. -/
def nullSourceArticle : Article := { title := some "no source" }

/-- An article whose `source` is `"Alpha"`. -/
def alphaArticle : Article := { source := some "Alpha" }

/-- An article published one day before the Unix epoch
(`1969-12-31T00:00:00Z`, timestamp -86400000 ms). -/
def preEpochArticle : Article := { published_date := some (-86400000) }

/-- An article with no `published_date`. -/
def undatedArticle : Article := { title := some "undated" }

/-- One of a pair of articles with equal publish timestamps. -/
def tieArticleA : Article := { title := some "first of tie", published_date := some 5 }

/-- The other of the pair, listed second in the input. -/
def tieArticleB : Article := { title := some "second of tie", published_date := some 5 }

/-! ## Helper lemmas about the sort stage -/

theorem sortArticles_asc_eq (articles : List Article) :
    sortArticles articles "published_date_asc" = articles.mergeSort dateAscLe := rfl

theorem sortArticles_desc_eq (articles : List Article) :
    sortArticles articles "published_date_desc" = articles.mergeSort dateDescLe := rfl

theorem sortArticles_source_eq (articles : List Article) :
    sortArticles articles "source_asc" = articles.mergeSort sourceAscLe := rfl

theorem sortArticles_perm_aux (articles : List Article) (sortOrder : String) :
    (sortArticles articles sortOrder).Perm articles := by
  unfold sortArticles
  split_ifs
  · exact List.mergeSort_perm articles dateAscLe
  · exact List.mergeSort_perm articles dateDescLe
  · exact List.mergeSort_perm articles sourceAscLe
  · exact List.Perm.refl articles

theorem sortArticles_asc_pairwise (articles : List Article) :
    (sortArticles articles "published_date_asc").Pairwise
      (fun x y => effDate x ≤ effDate y) := by
  rw [sortArticles_asc_eq]
  refine (List.sorted_mergeSort dateAscLe_trans dateAscLe_total articles).imp ?_
  intro a b hab
  simpa [dateAscLe] using hab

theorem sortArticles_desc_pairwise (articles : List Article) :
    (sortArticles articles "published_date_desc").Pairwise
      (fun x y => effDate y ≤ effDate x) := by
  rw [sortArticles_desc_eq]
  refine (List.sorted_mergeSort dateDescLe_trans dateDescLe_total articles).imp ?_
  intro a b hab
  simpa [dateDescLe] using hab

theorem sortArticles_source_pairwise (articles : List Article) :
    (sortArticles articles "source_asc").Pairwise
      (fun x y => sourceKey x ≤ sourceKey y) := by
  rw [sortArticles_source_eq]
  refine (List.sorted_mergeSort sourceAscLe_trans sourceAscLe_total articles).imp ?_
  intro a b hab
  simpa [sourceAscLe, localeCompare_nonpos_iff] using hab

theorem localeCompare_self (s : String) : localeCompare s s = 0 := by
  simp [localeCompare]

/-! ## Claim predicates -/

/-- The placement property claimed for `published_date_asc`: every article
with an absent `publishedDate` sits before every article that has one. -/
def missingDatesFirst (l : List Article) : Prop :=
  ∀ i : Fin l.length, ∀ j : Fin l.length,
    (l.get i).published_date = none → (l.get j).published_date ≠ none →
      (i : Nat) < (j : Nat)

instance (l : List Article) : Decidable (missingDatesFirst l) := by
  unfold missingDatesFirst; infer_instance

/-! ## Claims -/

/-- C1 (counterexample): the sort-order `change` handler is
`fetchAndRenderAggregatedNews` itself, so it is false that a reorder with a
non-empty cached article set issues no new remote read — the handler always
issues the `select('*')` read on `articles`. -/
theorem sortChange_reuses_cache_refuted :
    ¬ (∀ (cachedArticles : List Article), cachedArticles ≠ [] →
        ∀ (sortOrder : String) (resp : FetchResult),
          (onSortOrderChange sortOrder resp).2 = []) := by
  intro h
  have h2 := h [zetaArticle] (by decide) "published_date_asc"
    (FetchResult.ok [zetaArticle])
  have h3 : (onSortOrderChange "published_date_asc"
      (FetchResult.ok [zetaArticle])).2 = [⟨"articles"⟩] := rfl
  rw [h3] at h2
  exact List.cons_ne_nil _ _ h2

/-- C1 (amended): on every sort-order change the handler issues exactly one
fresh `select('*')` remote read of the `articles` collection, whatever the
outcome; no cached article set is ever reused. -/
theorem onSortOrderChange_always_fetches (sortOrder : String) (resp : FetchResult) :
    (onSortOrderChange sortOrder resp).2 = [⟨"articles"⟩] := by
  cases resp with
  | err m => rfl
  | ok articles =>
      by_cases h : articles.length = 0 <;>
        simp [onSortOrderChange, fetchAndRenderAggregatedNews, h]

/-- C2 (counterexample): a missing `publishedDate` is treated as the epoch
(timestamp 0), not as the earliest possible timestamp: sorting an article
published before 1970 together with an undated article under
`published_date_asc` places the dated article first. -/
theorem missing_dates_sort_first_refuted :
    ¬ missingDatesFirst
        (sortArticles [preEpochArticle, undatedArticle] "published_date_asc") := by
  have hpair : List.Pairwise (fun a b => dateAscLe a b)
      [preEpochArticle, undatedArticle] := by decide
  have hs : sortArticles [preEpochArticle, undatedArticle] "published_date_asc" =
      [preEpochArticle, undatedArticle] :=
    (sortArticles_asc_eq _).trans (List.mergeSort_of_sorted hpair)
  rw [hs]
  decide

/-- C2 (amended): `published_date_asc` sorts ascending by the effective
timestamp in which a missing `publishedDate` is treated as the Unix epoch
(timestamp 0) — so an undated article precedes every article with a positive
timestamp, but follows pre-epoch ones. -/
theorem sortArticles_dateAsc_sorted (articles : List Article) :
    (sortArticles articles "published_date_asc").Pairwise
      (fun x y => effDate x ≤ effDate y) ∧
    ∀ x ∈ articles, x.published_date = none → effDate x = 0 := by
  refine ⟨sortArticles_asc_pairwise articles, ?_⟩
  intro x _ hx
  simp [effDate, hx]

/-- Witness for C2 (amended) at a concrete two-article input. -/
theorem sortArticles_dateAsc_sorted_witness :
    (sortArticles [undatedArticle, preEpochArticle] "published_date_asc").Pairwise
      (fun x y => effDate x ≤ effDate y) ∧ effDate undatedArticle = 0 := by
  have h := sortArticles_dateAsc_sorted [undatedArticle, preEpochArticle]
  exact ⟨h.1, h.2 undatedArticle (by simp) rfl⟩

/-- C3 (counterexample): in the `frontend/script.js` variant the `source_asc`
comparator is the unguarded `a.source.localeCompare(b.source)`, so sorting a
list containing an article with a missing source throws instead of
succeeding — refuting that a `source_asc` sort never raises an error. -/
theorem sourceAsc_never_errors_refuted :
    ¬ (∀ articles : List Article, ∃ sorted : List Article,
        renderNewsFrontendSorted "source_asc" articles = Except.ok sorted) := by
  intro h
  obtain ⟨sorted, hs⟩ := h [zetaArticle, nullSourceArticle, alphaArticle]
  have herr : renderNewsFrontendSorted "source_asc"
      [zetaArticle, nullSourceArticle, alphaArticle] =
      Except.error "TypeError: Cannot read properties of null" := rfl
  rw [herr] at hs
  exact Except.noConfusion hs

/-- C3 (amended): in the guarded variants (`renderAggregatedNews`, and the
`renderNews` with `(a.source || '')`), `source_asc` sorting is total — it
returns a permutation of the input ordered by the string comparison in which
a missing source is compared as the empty string. -/
theorem sortArticles_sourceAsc_ok (articles : List Article) :
    (sortArticles articles "source_asc").Pairwise
      (fun x y => sourceKey x ≤ sourceKey y) ∧
    (sortArticles articles "source_asc").Perm articles ∧
    ∀ x ∈ articles, x.source = none → sourceKey x = "" := by
  refine ⟨sortArticles_source_pairwise articles, sortArticles_perm_aux articles _, ?_⟩
  intro x _ hx
  simp [sourceKey, hx]

/-- Witness for C3 (amended) at the spec's scenario input
`[Zeta, null, Alpha]`. -/
theorem sortArticles_sourceAsc_ok_witness :
    (sortArticles [zetaArticle, nullSourceArticle, alphaArticle] "source_asc").Pairwise
      (fun x y => sourceKey x ≤ sourceKey y) ∧ sourceKey nullSourceArticle = "" := by
  have h := sortArticles_sourceAsc_ok [zetaArticle, nullSourceArticle, alphaArticle]
  exact ⟨h.1, h.2.2 nullSourceArticle (by simp) rfl⟩

/-- C4 (counterexample): the frontend variant's sort-order `change` listener
guards the re-render with `if (!error && articles)` and does nothing on a
fetch error: the display region keeps its prior content instead of showing
the failure message, so not every failure path writes a visible message. -/
theorem frontend_sortChange_failure_message_refuted :
    ¬ (∀ (sortOrder msg : String) (region : NewsRegion),
        ((frontendSortChangeListener sortOrder (FetchResult.err msg) region).1).content =
          "<p>Failed to load news. Please try again later.</p>") := by
  intro h
  have h2 := h "published_date_asc" "boom" ⟨"old cards"⟩
  have h3 : ((frontendSortChangeListener "published_date_asc"
      (FetchResult.err "boom") ⟨"old cards"⟩).1).content = "old cards" := rfl
  rw [h3] at h2
  exact absurd h2 (by decide)

/-- C4 (amended): the fetch-and-render operations write the visible failure
message on every fetch error, but the frontend variant's sort-change listener
silently drops the error and leaves the display region untouched. -/
theorem fetch_failure_paths (sortOrder msg : String) (region : NewsRegion) :
    (fetchAndRenderAggregatedNews sortOrder (FetchResult.err msg)).1 =
      ⟨"<p>Failed to load news articles. Please try again later.</p>"⟩ ∧
    (frontendSortChangeListener sortOrder (FetchResult.err msg) region).1 = region :=
  ⟨rfl, rfl⟩

/-- C5: the briefing lookup distinguishes three mutually exclusive outcomes —
a returned row is rendered, zero rows (error code `PGRST116`, no data) shows
the "no briefing available" message, and any other error shows the failure
message, the two messages being distinct. -/
theorem fetchDailyBriefing_three_outcomes :
    (∀ b : Briefing, fetchDailyBriefing ⟨some b, none⟩ = renderBriefing b) ∧
    (∀ m : String, fetchDailyBriefing ⟨none, some ⟨"PGRST116", m⟩⟩ =
      "<p>No AI briefing available for today yet. Check back later!</p>") ∧
    (∀ e : SbError, e.code ≠ "PGRST116" → ∀ d : Option Briefing,
      fetchDailyBriefing ⟨d, some e⟩ = "<p>Failed to load daily briefing.</p>") ∧
    ("<p>No AI briefing available for today yet. Check back later!</p>" ≠
      "<p>Failed to load daily briefing.</p>") := by
  refine ⟨fun b => rfl, fun m => rfl, ?_, by decide⟩
  intro e he d
  have hbne : (e.code != "PGRST116") = true := by simpa [bne_iff_ne] using he
  simp [fetchDailyBriefing, hbne]

/-- Witness for C5 at a concrete non-`PGRST116` error. -/
theorem fetchDailyBriefing_three_outcomes_witness :
    fetchDailyBriefing ⟨none, some ⟨"500", "server exploded"⟩⟩ =
      "<p>Failed to load daily briefing.</p>" :=
  fetchDailyBriefing_three_outcomes.2.2.1 ⟨"500", "server exploded"⟩ (by decide) none

/-- C6: for every article list and every order key, `sortArticles` returns a
permutation of its input — nothing lost, nothing duplicated.  (The input list
itself is untouched: the code sorts the copy `[...articles]`, and in this
embedding all values are immutable.) -/
theorem sortArticles_permutation (articles : List Article) (sortOrder : String) :
    (sortArticles articles sortOrder).Perm articles :=
  sortArticles_perm_aux articles sortOrder

/-- C7: sorting descending then ascending yields a permutation of the input
in ascending effective-timestamp order, and ascending then descending yields
it in descending order. -/
theorem sortArticles_order_invertible (articles : List Article) (h : articles ≠ []) :
    ((sortArticles (sortArticles articles "published_date_desc")
        "published_date_asc").Pairwise (fun x y => effDate x ≤ effDate y) ∧
      (sortArticles (sortArticles articles "published_date_desc")
        "published_date_asc").Perm articles) ∧
    ((sortArticles (sortArticles articles "published_date_asc")
        "published_date_desc").Pairwise (fun x y => effDate y ≤ effDate x) ∧
      (sortArticles (sortArticles articles "published_date_asc")
        "published_date_desc").Perm articles) := by
  refine ⟨⟨sortArticles_asc_pairwise _, ?_⟩, ⟨sortArticles_desc_pairwise _, ?_⟩⟩
  · exact (sortArticles_perm_aux _ _).trans (sortArticles_perm_aux _ _)
  · exact (sortArticles_perm_aux _ _).trans (sortArticles_perm_aux _ _)

/-- Witness for C7 at a concrete non-empty input. -/
theorem sortArticles_order_invertible_witness :
    ((sortArticles (sortArticles [preEpochArticle, undatedArticle]
        "published_date_desc") "published_date_asc").Pairwise
        (fun x y => effDate x ≤ effDate y) ∧
      (sortArticles (sortArticles [preEpochArticle, undatedArticle]
        "published_date_desc") "published_date_asc").Perm
        [preEpochArticle, undatedArticle]) ∧
    ((sortArticles (sortArticles [preEpochArticle, undatedArticle]
        "published_date_asc") "published_date_desc").Pairwise
        (fun x y => effDate y ≤ effDate x) ∧
      (sortArticles (sortArticles [preEpochArticle, undatedArticle]
        "published_date_asc") "published_date_desc").Perm
        [preEpochArticle, undatedArticle]) :=
  sortArticles_order_invertible [preEpochArticle, undatedArticle] (by decide)

/-- Articles that tie under the given order key: equal effective timestamps
for the date orders, equal effective source strings for `source_asc`, and any
pair for an unrecognized key (where the sort is the identity). -/
def tieFor (sortOrder : String) (x y : Article) : Prop :=
  if sortOrder = "published_date_asc" then effDate x = effDate y
  else if sortOrder = "published_date_desc" then effDate x = effDate y
  else if sortOrder = "source_asc" then sourceKey x = sourceKey y
  else True

/-- C8: `sortArticles` is stable for every order key — two articles adjacent
as a sublist of the input whose sort keys tie stay in that relative order in
the output. -/
theorem sortArticles_stable (sortOrder : String) (x y : Article)
    (articles : List Article) (hsub : [x, y].Sublist articles)
    (htie : tieFor sortOrder x y) :
    [x, y].Sublist (sortArticles articles sortOrder) := by
  unfold sortArticles
  unfold tieFor at htie
  split_ifs at htie ⊢ with h1 h2 h3
  · exact List.pair_sublist_mergeSort dateAscLe_trans dateAscLe_total
      (by simp [dateAscLe, htie]) hsub
  · exact List.pair_sublist_mergeSort dateDescLe_trans dateDescLe_total
      (by simp [dateDescLe, htie]) hsub
  · exact List.pair_sublist_mergeSort sourceAscLe_trans sourceAscLe_total
      (by simp [sourceAscLe, htie, localeCompare_self]) hsub
  · exact hsub

/-- Witness for C8: two articles with the same publish timestamp keep their
input order. -/
theorem sortArticles_stable_witness :
    [tieArticleA, tieArticleB].Sublist
      (sortArticles [tieArticleA, tieArticleB] "published_date_asc") :=
  sortArticles_stable "published_date_asc" tieArticleA tieArticleB
    [tieArticleA, tieArticleB] (List.Sublist.refl _)
    (by simp [tieFor, effDate, tieArticleA, tieArticleB])

/-- C9: rendering the article list is idempotent — the output region depends
only on the order key and the articles (rendering clears the region before
appending the cards), so rendering the same input twice produces the same
region and re-rendering on top of a previous render changes nothing. -/
theorem renderAggregatedNews_idempotent (sortOrder : String)
    (articles : List Article) (r1 r2 : NewsRegion) :
    renderAggregatedNewsInto sortOrder articles r1 =
      renderAggregatedNewsInto sortOrder articles r2 ∧
    renderAggregatedNewsInto sortOrder articles
        (renderAggregatedNewsInto sortOrder articles r1) =
      renderAggregatedNewsInto sortOrder articles r1 :=
  ⟨rfl, rfl⟩

/-- C10: the executive-summary paragraph is always present — with the
placeholder when `summary_text` is absent or empty — while each of the four
optional sections contributes nothing when its field is absent or empty, so a
briefing with all optional fields falsy renders as just the title and the
placeholder summary. -/
theorem renderBriefing_sections (b : Briefing) :
    (strFalsy b.summary_text → summaryHtml b =
      "<p><strong>Executive Summary:</strong> No summary available.</p>") ∧
    summaryHtml b ≠ "" ∧
    (listFalsy b.key_developments → keyDevelopmentsHtml b = "") ∧
    (strFalsy b.strategic_implications → strategicHtml b = "") ∧
    (strFalsy b.suggested_reactions → reactionsHtml b = "") ∧
    (listFalsy b.related_article_urls → relatedUrlsHtml b = "") ∧
    (strFalsy b.summary_text → listFalsy b.key_developments →
      strFalsy b.strategic_implications → strFalsy b.suggested_reactions →
      listFalsy b.related_article_urls →
      renderBriefing b = briefingTitleHtml b ++
        "<p><strong>Executive Summary:</strong> No summary available.</p>") := by
  have hsum : strFalsy b.summary_text → summaryHtml b =
      "<p><strong>Executive Summary:</strong> No summary available.</p>" := by
    rintro (h | h) <;> simp [summaryHtml, jsOrStr, h]
  have hkd : listFalsy b.key_developments → keyDevelopmentsHtml b = "" := by
    rintro (h | h) <;> simp [keyDevelopmentsHtml, h]
  have hst : strFalsy b.strategic_implications → strategicHtml b = "" := by
    rintro (h | h) <;> simp [strategicHtml, h]
  have hre : strFalsy b.suggested_reactions → reactionsHtml b = "" := by
    rintro (h | h) <;> simp [reactionsHtml, h]
  have hur : listFalsy b.related_article_urls → relatedUrlsHtml b = "" := by
    rintro (h | h) <;> simp [relatedUrlsHtml, h]
  refine ⟨hsum, ?_, hkd, hst, hre, hur, ?_⟩
  · intro hEq
    have hlen := congrArg String.length hEq
    simp only [summaryHtml, String.length_append] at hlen
    have h1 : ("<p><strong>Executive Summary:</strong> " : String).length = 39 := rfl
    have h2 : ("</p>" : String).length = 4 := rfl
    have h0 : ("" : String).length = 0 := rfl
    omega
  · intro f1 f2 f3 f4 f5
    rw [renderBriefing, hsum f1, hkd f2, hst f3, hre f4, hur f5]
    simp

/-- Witness for C10 at the all-fields-absent briefing. -/
theorem renderBriefing_sections_witness :
    renderBriefing {} = briefingTitleHtml {} ++
      "<p><strong>Executive Summary:</strong> No summary available.</p>" := by
  have h := renderBriefing_sections {}
  exact h.2.2.2.2.2.2 (Or.inl rfl) (Or.inl rfl) (Or.inl rfl) (Or.inl rfl) (Or.inl rfl)

end AiNewsAgent
